import Mathlib

/-!
# Shallow embedding of the announcements router

This file embeds `src/backend/routers/announcements.py` (a FastAPI router over
two MongoDB collections) into Lean and proves properties of the five endpoint
handlers:

* `get_active_announcements` (public list, filtered by a date window),
* `get_all_announcements` (teacher-only full list),
* `create_announcement`, `update_announcement`, `delete_announcement`.

Modelling choices:

* A MongoDB document of the announcements collection becomes the structure
  `Announcement`; field absence of the optional `start_date` is `Option.none`.
  The `_id` is kept in its string (24-hex-char) rendering, so the
  `str(announcement["_id"])` response shaping is the identity here.
* The two collections become the structure `DB` (a list of announcements plus
  the set of teacher ids, since the teachers collection is only consulted via
  `find_one({"_id": teacher_username})`).
* Each handler is a pure function `DB → ... → Except HError α × DB`; raising
  `HTTPException(status_code, detail)` becomes returning `Except.error e` with
  `e : HError` identifying the distinct `(status, detail)` pair, paired with
  the store state at the moment of the raise.
* `datetime.utcnow().isoformat()` results and the store-generated `ObjectId`
  of an insert are extra explicit parameters (`now`, `newId`).
* Python truthiness of `Optional[str]` arguments (`if not teacher_username`,
  `if start_date`) is modelled by `pyTruthy`: `None` and `""` are falsy.
* `datetime.fromisoformat(s.replace('Z', '+00:00'))` is modelled by
  `pyDateOk`, a faithful recreation of CPython (≤ 3.10) `fromisoformat`
  including field range checks; `replaceZ` models the replace-all of `'Z'`.
* MongoDB string comparison (`$lte`/`$gte`) is byte-wise lexicographic on
  UTF-8; for the ASCII timestamp strings involved this is exactly Lean's
  `String` order. `.sort("created_at", -1)` is modelled as a stable sort by
  the relation `createdAtGe`.
-/

namespace Announcements

/-- One document of the announcements collection. `start_date = none` models
the field being entirely absent from the document. `oid` is the `_id` in its
24-hex-char string rendering. -/
structure Announcement where
  oid : String
  message : String
  expiration_date : String
  start_date : Option String
  created_by : String
  created_at : String
deriving DecidableEq, Repr

/-- The two collections the router reads and writes: the announcements
collection and the teachers collection (the latter only ever used for the
existence check `find_one({"_id": teacher_username})`, so it is kept as the
list of teacher ids). -/
structure DB where
  announcements : List Announcement
  teachers : List String
deriving DecidableEq, Repr

/-- The distinct `HTTPException`s raised by the router, identified by their
`(status_code, detail)` pair. -/
inductive HError where
  | authRequired
  | invalidCredential
  | invalidDateFormat
  | invalidIdFormat
  | notFound
  | updateFailed
deriving DecidableEq, Repr

/-- The `status_code` of each raised `HTTPException`. -/
def HError.status : HError → Nat
  | .authRequired => 401
  | .invalidCredential => 401
  | .invalidDateFormat => 400
  | .invalidIdFormat => 400
  | .notFound => 404
  | .updateFailed => 500

instance {ε α : Type} [DecidableEq ε] [DecidableEq α] : DecidableEq (Except ε α)
  | .error e1, .error e2 =>
    if h : e1 = e2 then .isTrue (by rw [h]) else .isFalse (by simp [h])
  | .error _, .ok _ => .isFalse (by simp)
  | .ok _, .error _ => .isFalse (by simp)
  | .ok a, .ok b =>
    if h : a = b then .isTrue (by rw [h]) else .isFalse (by simp [h])

/-- Python truthiness of an `Optional[str]`: `None` and `""` are falsy. -/
def pyTruthy : Option String → Bool
  | none => false
  | some s => s != ""

/-! ## Model of CPython `datetime.fromisoformat` (≤ 3.10 format) -/

/-- ASCII decimal digit test. -/
def isDigitC (c : Char) : Bool := '0' ≤ c && c ≤ '9'

/-- Numeric value of an ASCII digit. -/
def dval (c : Char) : Nat := c.toNat - 48

/-- Two-digit number. -/
def n2 (a b : Char) : Nat := dval a * 10 + dval b

/-- Four-digit number. -/
def n4 (a b c d : Char) : Nat := ((dval a * 10 + dval b) * 10 + dval c) * 10 + dval d

/-- Gregorian leap-year test (as in CPython `datetime`). -/
def isLeapYear (y : Nat) : Bool := y % 4 == 0 && (y % 100 != 0 || y % 400 == 0)

/-- Days in a month, as validated by the `datetime` constructor. -/
def daysInMonth (y m : Nat) : Nat :=
  if m == 2 then (if isLeapYear y then 29 else 28)
  else if m == 4 || m == 6 || m == 9 || m == 11 then 30
  else 31

/-- Parsed components of a Python `datetime`: date, time, microseconds and an
optional fixed UTC offset in microseconds (`none` = naive datetime). -/
structure PyDateTime where
  year : Nat
  month : Nat
  day : Nat
  hour : Nat
  minute : Nat
  second : Nat
  usec : Nat
  tzOffsetUSec : Option Int
deriving DecidableEq, Repr

/-- CPython `_parse_hh_mm_ss_ff`: `HH`, `HH:MM`, `HH:MM:SS`,
`HH:MM:SS.fff` or `HH:MM:SS.ffffff`, without range checks (those happen in
the `datetime`/`timezone` constructors). Returns `(hh, mm, ss, usec)`. -/
def parseHMSF : List Char → Option (Nat × Nat × Nat × Nat)
  | [h1, h2] =>
    if isDigitC h1 && isDigitC h2 then some (n2 h1 h2, 0, 0, 0) else none
  | [h1, h2, ':', m1, m2] =>
    if isDigitC h1 && isDigitC h2 && isDigitC m1 && isDigitC m2 then
      some (n2 h1 h2, n2 m1 m2, 0, 0)
    else none
  | [h1, h2, ':', m1, m2, ':', s1, s2] =>
    if isDigitC h1 && isDigitC h2 && isDigitC m1 && isDigitC m2 &&
        isDigitC s1 && isDigitC s2 then
      some (n2 h1 h2, n2 m1 m2, n2 s1 s2, 0)
    else none
  | h1 :: h2 :: ':' :: m1 :: m2 :: ':' :: s1 :: s2 :: '.' :: frac =>
    if isDigitC h1 && isDigitC h2 && isDigitC m1 && isDigitC m2 &&
        isDigitC s1 && isDigitC s2 && frac.all isDigitC &&
        (frac.length == 3 || frac.length == 6) then
      let f := frac.foldl (fun acc c => acc * 10 + dval c) 0
      some (n2 h1 h2, n2 m1 m2, n2 s1 s2, if frac.length == 3 then f * 1000 else f)
    else none
  | _ => none

/-- CPython `_parse_isoformat_time` splits the time part at the first `'-'`
if any, else at the first `'+'`; returns the bare time and, when a sign was
found, the sign together with the characters after it. -/
def splitAtTz (cs : List Char) : List Char × Option (Char × List Char) :=
  match cs.findIdx? (· == '-') with
  | some i => (cs.take i, some ('-', cs.drop (i + 1)))
  | none =>
    match cs.findIdx? (· == '+') with
    | some i => (cs.take i, some ('+', cs.drop (i + 1)))
    | none => (cs, none)

/-- Parse and validate the timezone part (after the sign): CPython requires
its length to be 5, 8 or 15 (`HH:MM`, `HH:MM:SS`, `HH:MM:SS.ffffff`), parses
it with `_parse_hh_mm_ss_ff`, and the `timezone` constructor then requires
the absolute offset to be strictly less than 24 hours. Returns the unsigned
offset in microseconds. -/
def parseTzPart (cs : List Char) : Option Nat :=
  if cs.length == 5 || cs.length == 8 || cs.length == 15 then
    match parseHMSF cs with
    | some (hh, mm, ss, us) =>
      let total := ((hh * 3600 + mm * 60 + ss) * 1000000 + us)
      if total < 86400000000 then some total else none
    | none => none
  else none

/-- Parse the time-of-day part (everything after the single separator
character), including an optional timezone, applying the range checks of the
`datetime` constructor (hour ≤ 23, minute ≤ 59, second ≤ 59). -/
def parseTimePart (cs : List Char) : Option (Nat × Nat × Nat × Nat × Option Int) :=
  let (timeCs, tz) := splitAtTz cs
  match parseHMSF timeCs with
  | none => none
  | some (hh, mm, ss, us) =>
    if hh ≤ 23 && mm ≤ 59 && ss ≤ 59 then
      match tz with
      | none => some (hh, mm, ss, us, none)
      | some (sign, tzCs) =>
        match parseTzPart tzCs with
        | none => none
        | some off =>
          some (hh, mm, ss, us, some (if sign == '-' then -(off : Int) else (off : Int)))
    else none

/-- CPython (≤ 3.10) `datetime.fromisoformat`: `YYYY-MM-DD` optionally
followed by one arbitrary separator character and a time part, with the
`datetime` constructor's range checks. -/
def parseIso (cs : List Char) : Option PyDateTime :=
  match cs with
  | y1 :: y2 :: y3 :: y4 :: '-' :: mo1 :: mo2 :: '-' :: d1 :: d2 :: rest =>
    if [y1, y2, y3, y4, mo1, mo2, d1, d2].all isDigitC then
      let y := n4 y1 y2 y3 y4
      let mo := n2 mo1 mo2
      let d := n2 d1 d2
      if 1 ≤ y && 1 ≤ mo && mo ≤ 12 && 1 ≤ d && d ≤ daysInMonth y mo then
        match rest with
        | [] => some ⟨y, mo, d, 0, 0, 0, 0, none⟩
        | _sep :: timeCs =>
          match parseTimePart timeCs with
          | some (hh, mm, ss, us, off) => some ⟨y, mo, d, hh, mm, ss, us, off⟩
          | none => none
      else none
    else none
  | _ => none

/-- Python `s.replace('Z', '+00:00')`: every occurrence of `'Z'` is replaced. -/
def replaceZ : List Char → List Char
  | [] => []
  | 'Z' :: rest => '+' :: '0' :: '0' :: ':' :: '0' :: '0' :: replaceZ rest
  | c :: rest => c :: replaceZ rest

/-- `datetime.fromisoformat(s.replace('Z', '+00:00'))` succeeds. -/
def pyDateOk (s : String) : Bool := (parseIso (replaceZ s.data)).isSome

/-- The router's shared date validation (create and update): `try:`
`fromisoformat` on `expiration_date`, and on `start_date` only when that is
truthy. -/
def validDates (expiration_date : String) (start_date : Option String) : Bool :=
  pyDateOk expiration_date &&
    (match start_date with
     | some s => if s == "" then true else pyDateOk s
     | none => true)

/-! ## MongoDB collection primitives -/

/-- `find_one({"_id": oid})`: the first document with the given id. -/
def findOneAnn : List Announcement → String → Option Announcement
  | [], _ => none
  | a :: rest, oid => if a.oid = oid then some a else findOneAnn rest oid

/-- `update_one({"_id": oid}, ...)`: apply `f` to the first document with the
given id; also return `(matched_count, modified_count)`. -/
def updateOneAnn : List Announcement → String → (Announcement → Announcement) →
    List Announcement × Nat × Nat
  | [], _, _ => ([], 0, 0)
  | a :: rest, oid, f =>
    if a.oid = oid then
      (f a :: rest, 1, if f a = a then 0 else 1)
    else
      let r := updateOneAnn rest oid f
      (a :: r.1, r.2)

/-- `delete_one({"_id": oid})`: remove the first document with the given id;
also return `deleted_count`. -/
def deleteOneAnn : List Announcement → String → List Announcement × Nat
  | [], _ => ([], 0)
  | a :: rest, oid =>
    if a.oid = oid then (rest, 1)
    else
      let r := deleteOneAnn rest oid
      (a :: r.1, r.2)

/-- `bson.ObjectId(s)` for a string argument: succeeds exactly on 24
hexadecimal characters (case-insensitive, normalised to lower case). -/
def parseObjectId (s : String) : Option String :=
  if s.length == 24 && s.data.all (fun c => isDigitC c ||
      ('a' ≤ c && c ≤ 'f') || ('A' ≤ c && c ≤ 'F')) then
    some (String.mk (s.data.map Char.toLower))
  else none

/-- Lexicographic order on character lists by code point. For the ASCII
timestamp strings involved this is exactly the byte-wise comparison BSON
applies to strings in `$lte`/`$gte` and in sort keys. -/
def lexLeB : List Char → List Char → Bool
  | [], _ => true
  | _ :: _, [] => false
  | c :: cs, d :: ds =>
    if c.toNat < d.toNat then true
    else if d.toNat < c.toNat then false
    else lexLeB cs ds

/-- Byte-wise (lexicographic) string comparison, as the store performs it. -/
def strLeB (a b : String) : Bool := lexLeB a.data b.data

lemma lexLeB_refl : ∀ l : List Char, lexLeB l l = true
  | [] => rfl
  | c :: cs => by simp [lexLeB, lexLeB_refl cs]

lemma lexLeB_total : ∀ l1 l2 : List Char, lexLeB l1 l2 = true ∨ lexLeB l2 l1 = true
  | [], _ => Or.inl rfl
  | _ :: _, [] => Or.inr rfl
  | c :: cs, d :: ds => by
    rcases Nat.lt_trichotomy c.toNat d.toNat with h | h | h
    · exact Or.inl (by simp [lexLeB, h])
    · rcases lexLeB_total cs ds with h2 | h2
      · exact Or.inl (by simp [lexLeB, h, h2])
      · exact Or.inr (by simp [lexLeB, h, h2])
    · exact Or.inr (by simp [lexLeB, h])

lemma lexLeB_trans : ∀ l1 l2 l3 : List Char, lexLeB l1 l2 = true →
    lexLeB l2 l3 = true → lexLeB l1 l3 = true
  | [], _, _, _, _ => rfl
  | _ :: _, [], _, h12, _ => by simp [lexLeB] at h12
  | _ :: _, _ :: _, [], _, h23 => by simp [lexLeB] at h23
  | c :: cs, d :: ds, e :: es, h12, h23 => by
    simp only [lexLeB] at h12 h23 ⊢
    rcases Nat.lt_trichotomy c.toNat d.toNat with hcd | hcd | hcd
    · rcases Nat.lt_trichotomy d.toNat e.toNat with hde | hde | hde
      · simp [show c.toNat < e.toNat by omega]
      · simp [show c.toNat < e.toNat by omega]
      · simp [Nat.lt_asymm hde, hde] at h23
    · simp [Nat.lt_irrefl, hcd] at h12
      rcases Nat.lt_trichotomy d.toNat e.toNat with hde | hde | hde
      · simp [show c.toNat < e.toNat by omega]
      · simp only [show ¬c.toNat < e.toNat by omega, if_false,
          show ¬e.toNat < c.toNat by omega]
        simp [Nat.lt_irrefl, hde] at h23
        exact lexLeB_trans cs ds es h12 h23
      · simp [Nat.lt_asymm hde, hde] at h23
    · simp [Nat.lt_asymm hcd, hcd] at h12

/-- Descending `created_at` order, the relation of `.sort("created_at", -1)`. -/
def createdAtGe (a b : Announcement) : Prop :=
  strLeB b.created_at a.created_at = true

instance : DecidableRel createdAtGe :=
  fun a b => inferInstanceAs (Decidable (strLeB b.created_at a.created_at = true))

instance : IsTotal Announcement createdAtGe :=
  ⟨fun a b => lexLeB_total b.created_at.data a.created_at.data⟩

instance : IsTrans Announcement createdAtGe :=
  ⟨fun _ _ _ h1 h2 => lexLeB_trans _ _ _ h2 h1⟩

/-- `.sort("created_at", -1)`: a stable sort by descending `created_at`. -/
def sortByCreatedAtDesc (l : List Announcement) : List Announcement :=
  l.insertionSort createdAtGe

/-! ## The five endpoint handlers -/

/-- `GET /announcements`: the MongoDB filter
`{"$or": [{"start_date": {"$exists": False}}, {"start_date": {"$lte": t}}],`
` "expiration_date": {"$gte": t}}` evaluated on one document (string
comparisons are lexicographic, as BSON compares strings byte-wise). -/
def activeQuery (current_time : String) (a : Announcement) : Bool :=
  (match a.start_date with
   | none => true
   | some s => strLeB s current_time) &&
  strLeB current_time a.expiration_date

/-- `GET /announcements` handler: `current_time` is the caller-supplied value
of `datetime.utcnow().isoformat()`. Returns the response list and the
(untouched) store. -/
def get_active_announcements (db : DB) (current_time : String) :
    List Announcement × DB :=
  (sortByCreatedAtDesc (db.announcements.filter (activeQuery current_time)), db)

/-- `GET /announcements/all` handler (teacher-only). -/
def get_all_announcements (db : DB) (teacher_username : Option String) :
    Except HError (List Announcement) × DB :=
  if !pyTruthy teacher_username then (.error .authRequired, db)
  else
    match teacher_username with
    | none => (.error .authRequired, db)
    | some u =>
      if u ∈ db.teachers then (.ok (sortByCreatedAtDesc db.announcements), db)
      else (.error .invalidCredential, db)

/-- `POST /announcements` handler. `now` is `datetime.utcnow().isoformat()`
at the time of the call; `newId` is the string rendering of the `ObjectId`
generated by `insert_one`. -/
def create_announcement (db : DB) (now newId : String)
    (message expiration_date : String) (start_date : Option String)
    (teacher_username : Option String) : Except HError Announcement × DB :=
  if !pyTruthy teacher_username then (.error .authRequired, db)
  else
    match teacher_username with
    | none => (.error .authRequired, db)
    | some u =>
      if u ∈ db.teachers then
        if validDates expiration_date start_date then
          let announcement : Announcement :=
            { oid := newId
              message := message
              expiration_date := expiration_date
              start_date := if pyTruthy start_date then start_date else none
              created_by := u
              created_at := now }
          (.ok announcement,
           { db with announcements := db.announcements ++ [announcement] })
        else (.error .invalidDateFormat, db)
      else (.error .invalidCredential, db)

/-- The `$unset` document of the update handler: remove `start_date`. -/
def unsetStartDate (a : Announcement) : Announcement := { a with start_date := none }

/-- The `$set` document of the update handler: `message` and
`expiration_date` always; `start_date` only when the argument is truthy. -/
def setUpdateData (message expiration_date : String) (start_date : Option String)
    (a : Announcement) : Announcement :=
  { a with
    message := message
    expiration_date := expiration_date
    start_date := if pyTruthy start_date then start_date else a.start_date }

/-- `PUT /announcements/{announcement_id}` handler. -/
def update_announcement (db : DB) (announcement_id : String)
    (message expiration_date : String) (start_date : Option String)
    (teacher_username : Option String) : Except HError Announcement × DB :=
  if !pyTruthy teacher_username then (.error .authRequired, db)
  else
    match teacher_username with
    | none => (.error .authRequired, db)
    | some u =>
      if u ∈ db.teachers then
        match parseObjectId announcement_id with
        | none => (.error .invalidIdFormat, db)
        | some obj_id =>
          match findOneAnn db.announcements obj_id with
          | none => (.error .notFound, db)
          | some announcement =>
            if validDates expiration_date start_date then
              let anns1 :=
                if pyTruthy start_date then db.announcements
                else if announcement.start_date.isSome then
                  (updateOneAnn db.announcements obj_id unsetStartDate).1
                else db.announcements
              let r := updateOneAnn anns1 obj_id
                (setUpdateData message expiration_date start_date)
              if r.2.2 == 0 && r.2.1 == 0 then
                (.error .updateFailed, { db with announcements := r.1 })
              else
                match findOneAnn r.1 obj_id with
                | some updated => (.ok updated, { db with announcements := r.1 })
                | none => (.error .updateFailed, { db with announcements := r.1 })
            else (.error .invalidDateFormat, db)
      else (.error .invalidCredential, db)

/-- `DELETE /announcements/{announcement_id}` handler. -/
def delete_announcement (db : DB) (announcement_id : String)
    (teacher_username : Option String) : Except HError String × DB :=
  if !pyTruthy teacher_username then (.error .authRequired, db)
  else
    match teacher_username with
    | none => (.error .authRequired, db)
    | some u =>
      if u ∈ db.teachers then
        match parseObjectId announcement_id with
        | none => (.error .invalidIdFormat, db)
        | some obj_id =>
          let r := deleteOneAnn db.announcements obj_id
          if r.2 == 0 then (.error .notFound, { db with announcements := r.1 })
          else (.ok "Announcement deleted successfully",
                { db with announcements := r.1 })
      else (.error .invalidCredential, db)

/-! ## Chronological (instant-based) reading of timestamps

The handlers above compare timestamp *strings*. To talk about what the
timestamps chronologically denote, we convert a parsed timestamp to an
absolute instant (microseconds on the proleptic Gregorian timeline, counted
from 0000-03-01), interpreting a naive timestamp as UTC — which is the intent
of `datetime.utcnow()` — and subtracting an explicit offset. -/

/-- Days since 0000-03-01 of a proleptic-Gregorian civil date (year ≥ 1). -/
def daysFromCivil (y m d : Nat) : Nat :=
  let y2 := if m ≤ 2 then y - 1 else y
  let era := y2 / 400
  let yoe := y2 % 400
  let mp := (m + 9) % 12
  let doy := (153 * mp + 2) / 5 + (d - 1)
  let doe := yoe * 365 + yoe / 4 - yoe / 100 + doy
  era * 146097 + doe

/-- The absolute instant a parsed timestamp denotes, in microseconds;
naive timestamps are read as UTC. -/
def instantUSec (dt : PyDateTime) : Int :=
  ((daysFromCivil dt.year dt.month dt.day) * 86400000000 +
    ((dt.hour * 3600 + dt.minute * 60 + dt.second) * 1000000 + dt.usec) : Nat) -
  dt.tzOffsetUSec.getD 0

/-- Parse an ISO string and return the instant it denotes. -/
def isoInstant (s : String) : Option Int := (instantUSec <$> parseIso s.data)

/-- Modelled from the spec: chronological public visibility — the active
window `[start_date, expiration_date)` on parsed instants (start defaults to
"always started" when absent), evaluated at the instant the current-time
string denotes. -/
def chronoVisible (now : String) (a : Announcement) : Bool :=
  match isoInstant now, isoInstant a.expiration_date with
  | some tn, some te =>
    (match a.start_date with
     | none => true
     | some sd =>
       match isoInstant sd with
       | some ts => decide (ts ≤ tn)
       | none => false) &&
    decide (tn < te)
  | _, _ => false

/-! ## Concrete stores used by counterexamples and witnesses -/

/-- A stored announcement without a `start_date` field. -/
def annA : Announcement :=
  { oid := "64a000000000000000000001"
    message := "m"
    expiration_date := "2025-01-01T00:00:00"
    start_date := none
    created_by := "alice"
    created_at := "2024-06-01T00:00:00" }

/-- A second stored announcement, created later than `annA`. -/
def annB : Announcement :=
  { oid := "64a000000000000000000004"
    message := "b"
    expiration_date := "2025-06-01T00:00:00"
    start_date := none
    created_by := "alice"
    created_at := "2024-07-01T00:00:00" }

/-- A stored announcement that has a `start_date` field. -/
def annS : Announcement :=
  { oid := "64a000000000000000000005"
    message := "m"
    expiration_date := "2025-01-01T00:00:00"
    start_date := some "2024-01-01T00:00:00"
    created_by := "alice"
    created_at := "2024-06-01T00:00:00" }

/-- A stored announcement whose `expiration_date` carries an explicit zone
offset: it denotes 2024-12-31T18:00:00 UTC. -/
def annZ : Announcement :=
  { oid := "64a000000000000000000003"
    message := "tz"
    expiration_date := "2024-12-31T23:00:00+05:00"
    start_date := none
    created_by := "alice"
    created_at := "2024-06-01T00:00:00" }

/-- A store with one announcement and one teacher. -/
def dbA : DB := { announcements := [annA], teachers := ["alice"] }

/-- A store with two announcements (inserted in ascending `created_at`
order, so listing has to reorder them). -/
def dbB : DB := { announcements := [annA, annB], teachers := ["alice"] }

/-- A store whose single announcement has a `start_date` field. -/
def dbS : DB := { announcements := [annS], teachers := ["alice"] }

/-- A store whose single announcement has a zone-offset expiration. -/
def dbZ : DB := { announcements := [annZ], teachers := ["alice"] }

/-! ## Helper lemmas -/

/-- Membership in the public list, unfolded to the date-window condition. -/
lemma mem_active_iff (db : DB) (t : String) (a : Announcement) :
    a ∈ (get_active_announcements db t).1 ↔
      a ∈ db.announcements ∧
        (a.start_date = none ∨ ∃ s, a.start_date = some s ∧ strLeB s t = true) ∧
        strLeB t a.expiration_date = true := by
  show a ∈ sortByCreatedAtDesc _ ↔ _
  rw [sortByCreatedAtDesc, List.mem_insertionSort, List.mem_filter]
  unfold activeQuery
  cases h : a.start_date with
  | none => simp [h]
  | some s => simp [h, and_assoc]

/-- The public list is sorted by descending `created_at`. -/
lemma sorted_active (db : DB) (t : String) :
    List.Sorted createdAtGe (get_active_announcements db t).1 :=
  List.sorted_insertionSort createdAtGe _

/-- `validDates` fails exactly when `expiration_date` is unparseable or a
truthy `start_date` is unparseable. -/
lemma validDates_eq_false_iff (exp : String) (sd : Option String) :
    validDates exp sd = false ↔
      (pyDateOk exp = false ∨ ∃ s, sd = some s ∧ s ≠ "" ∧ pyDateOk s = false) := by
  unfold validDates
  cases sd with
  | none => simp
  | some s =>
    by_cases hs : s = ""
    · subst hs
      simp
    · have hbeq : (s == "") = false := beq_eq_false_iff_ne.mpr hs
      cases hpe : pyDateOk exp <;> cases hps : pyDateOk s <;>
        simp [hpe, hps, hs, hbeq]

/-- Updating the first id-match with an id-preserving function commutes with
`find_one` on that id. -/
lemma findOne_updateOne (l : List Announcement) (oid : String)
    (f : Announcement → Announcement) (hf : ∀ a, (f a).oid = a.oid) :
    findOneAnn (updateOneAnn l oid f).1 oid = (findOneAnn l oid).map f := by
  induction l with
  | nil => rfl
  | cons a rest ih =>
    by_cases h : a.oid = oid
    · simp [updateOneAnn, findOneAnn, h, hf a]
    · simp [updateOneAnn, findOneAnn, h, ih]

/-- The `matched_count` of `update_one` is 1 exactly when a document with the
id exists. -/
lemma matched_updateOne (l : List Announcement) (oid : String)
    (f : Announcement → Announcement) :
    (updateOneAnn l oid f).2.1 = if (findOneAnn l oid).isSome then 1 else 0 := by
  induction l with
  | nil => rfl
  | cons a rest ih =>
    by_cases h : a.oid = oid
    · simp [updateOneAnn, findOneAnn, h]
    · simp [updateOneAnn, findOneAnn, h, ih]

/-- `delete_one` on an id with no matching document: no change, count 0. -/
lemma deleteOne_not_found (l : List Announcement) (oid : String)
    (h : findOneAnn l oid = none) : deleteOneAnn l oid = (l, 0) := by
  induction l with
  | nil => rfl
  | cons a rest ih =>
    by_cases ha : a.oid = oid
    · simp [findOneAnn, ha] at h
    · simp [findOneAnn, ha] at h
      simp [deleteOneAnn, ha, ih h]

/-- `delete_one` on an id with a matching document: count 1 and exactly one
document removed. -/
lemma deleteOne_found (l : List Announcement) (oid : String) (a : Announcement)
    (h : findOneAnn l oid = some a) :
    (deleteOneAnn l oid).2 = 1 ∧
      (deleteOneAnn l oid).1.length + 1 = l.length := by
  induction l with
  | nil => simp [findOneAnn] at h
  | cons b rest ih =>
    by_cases hb : b.oid = oid
    · simp [deleteOneAnn, hb]
    · simp [findOneAnn, hb] at h
      obtain ⟨h1, h2⟩ := ih h
      simp only [deleteOneAnn, hb, if_false, List.length_cons]
      refine ⟨h1, ?_⟩
      omega

/-- Tail of the successful update path, after the `$unset` stage has
produced the working collection `anns1` (which still holds a document
`ann1` under the id): the `$set` step reports `matched_count = 1`, so the
defensive 500 branch is skipped, re-reading the id yields `ann1` with the
`$set` fields applied, and the handler returns that document. -/
lemma update_tail (db db2 : DB) (obj_id msg exp : String) (sd : Option String)
    (ann : Announcement) (anns1 : List Announcement) (ann1 : Announcement)
    (hf1 : findOneAnn anns1 obj_id = some ann1)
    (hstart1 : pyTruthy sd = false → ann1.start_date = none)
    (h : (if ((updateOneAnn anns1 obj_id (setUpdateData msg exp sd)).2.2 == 0 &&
            (updateOneAnn anns1 obj_id (setUpdateData msg exp sd)).2.1 == 0) = true then
          (Except.error HError.updateFailed,
            { db with announcements :=
                (updateOneAnn anns1 obj_id (setUpdateData msg exp sd)).1 })
        else
          match findOneAnn
              (updateOneAnn anns1 obj_id (setUpdateData msg exp sd)).1 obj_id with
          | some updated =>
            (Except.ok updated,
              { db with announcements :=
                  (updateOneAnn anns1 obj_id (setUpdateData msg exp sd)).1 })
          | none =>
            (Except.error HError.updateFailed,
              { db with announcements :=
                  (updateOneAnn anns1 obj_id (setUpdateData msg exp sd)).1 })) =
      (Except.ok ann, db2)) :
    ann.message = msg ∧ ann.expiration_date = exp ∧
    (pyTruthy sd = true → ann.start_date = sd) ∧
    (pyTruthy sd = false → ann.start_date = none) ∧
    findOneAnn db2.announcements obj_id = some ann ∧
    db2.teachers = db.teachers := by
  have hmatchv : (updateOneAnn anns1 obj_id (setUpdateData msg exp sd)).2.1 = 1 := by
    rw [matched_updateOne, hf1]
    rfl
  have hafterv : findOneAnn
      (updateOneAnn anns1 obj_id (setUpdateData msg exp sd)).1 obj_id =
      some (setUpdateData msg exp sd ann1) := by
    rw [findOne_updateOne anns1 obj_id (setUpdateData msg exp sd) (fun _ => rfl), hf1]
    rfl
  rw [hmatchv] at h
  have hc : ((updateOneAnn anns1 obj_id (setUpdateData msg exp sd)).2.2 == 0 &&
      (1 : Nat) == 0) = false := by simp
  rw [hc] at h
  rw [if_neg Bool.false_ne_true] at h
  split at h
  next updated hafter0 =>
    rw [hafterv] at hafter0
    injection hafter0 with hupd
    simp only [Prod.mk.injEq, Except.ok.injEq] at h
    obtain ⟨hann, hdb2⟩ := h
    rw [← hupd] at hann
    subst hann
    refine ⟨rfl, rfl, ?_, ?_, ?_, ?_⟩
    · intro hts
      simp [setUpdateData, hts]
    · intro hts
      simp only [setUpdateData]
      rw [if_neg (by rw [hts]; exact Bool.false_ne_true)]
      exact hstart1 hts
    · rw [← hdb2]
      exact hafterv
    · rw [← hdb2]
  next hafter0 =>
    rw [hafterv] at hafter0
    cases hafter0

/-- Goal-form companion of `update_tail`: as long as the working collection
still holds a document under the id, the update tail never returns the
defensive 500 error. -/
lemma update_tail_ne (db : DB) (obj_id msg exp : String) (sd : Option String)
    (anns1 : List Announcement) (ann1 : Announcement)
    (hf1 : findOneAnn anns1 obj_id = some ann1) :
    (if ((updateOneAnn anns1 obj_id (setUpdateData msg exp sd)).2.2 == 0 &&
        (updateOneAnn anns1 obj_id (setUpdateData msg exp sd)).2.1 == 0) = true then
      (Except.error HError.updateFailed,
        { db with announcements :=
            (updateOneAnn anns1 obj_id (setUpdateData msg exp sd)).1 })
    else
      match findOneAnn
          (updateOneAnn anns1 obj_id (setUpdateData msg exp sd)).1 obj_id with
      | some updated =>
        (Except.ok updated,
          { db with announcements :=
              (updateOneAnn anns1 obj_id (setUpdateData msg exp sd)).1 })
      | none =>
        (Except.error HError.updateFailed,
          { db with announcements :=
              (updateOneAnn anns1 obj_id (setUpdateData msg exp sd)).1 })).1 ≠
      Except.error HError.updateFailed := by
  have hmatchv : (updateOneAnn anns1 obj_id (setUpdateData msg exp sd)).2.1 = 1 := by
    rw [matched_updateOne, hf1]
    rfl
  have hafterv : findOneAnn
      (updateOneAnn anns1 obj_id (setUpdateData msg exp sd)).1 obj_id =
      some (setUpdateData msg exp sd ann1) := by
    rw [findOne_updateOne anns1 obj_id (setUpdateData msg exp sd) (fun _ => rfl), hf1]
    rfl
  rw [hmatchv]
  have hc : ((updateOneAnn anns1 obj_id (setUpdateData msg exp sd)).2.2 == 0 &&
      (1 : Nat) == 0) = false := by simp
  rw [hc]
  rw [if_neg Bool.false_ne_true]
  split
  next updated hafter0 => simp
  next hafter0 =>
    rw [hafterv] at hafter0
    cases hafter0

/-! ## Claims -/

/-- C1: a stored announcement appears in the public list exactly when its
`start_date` is absent or (byte-wise) ≤ the current-time string, and its
`expiration_date` is (byte-wise) ≥ the current-time string; the operation
returns the store unchanged (no writes to either collection). -/
theorem ann_C1 (db : DB) (t : String) (a : Announcement) :
    (a ∈ (get_active_announcements db t).1 ↔
      a ∈ db.announcements ∧
        (a.start_date = none ∨ ∃ s, a.start_date = some s ∧ strLeB s t = true) ∧
        strLeB t a.expiration_date = true) ∧
    (get_active_announcements db t).2 = db :=
  ⟨mem_active_iff db t a, rfl⟩

/-- C2 counterexample: the claim says an announcement is omitted from the
public list at the exact instant the current time equals its
`expiration_date`; but with the current-time string equal to `annA`'s
`expiration_date`, `annA` is still returned (the filter is `$gte`,
inclusive). -/
theorem ann_C2_cex :
    annA.expiration_date = "2025-01-01T00:00:00" ∧
    annA ∈ (get_active_announcements dbA "2025-01-01T00:00:00").1 :=
  ⟨rfl, by decide⟩

/-- C2 (amended): an announcement is visible only while the current-time
string is ≤ its `expiration_date` (byte-wise); it is omitted once the
current time is strictly after `expiration_date`; and at the exact instant
the current time equals `expiration_date` it is still included (not
omitted), provided its start condition holds. -/
theorem ann_C2_amended (db : DB) (t : String) (a : Announcement) :
    (a ∈ (get_active_announcements db t).1 → strLeB t a.expiration_date = true) ∧
    (a ∈ db.announcements → strLeB t a.expiration_date = false →
      a ∉ (get_active_announcements db t).1) ∧
    (a ∈ db.announcements → a.expiration_date = t →
      (a.start_date = none ∨ ∃ s, a.start_date = some s ∧ strLeB s t = true) →
      a ∈ (get_active_announcements db t).1) := by
  refine ⟨fun h => ((mem_active_iff db t a).mp h).2.2, ?_, ?_⟩
  · intro _ hlt hmem
    rw [((mem_active_iff db t a).mp hmem).2.2] at hlt
    cases hlt
  · intro hmem hexp hstart
    refine (mem_active_iff db t a).mpr ⟨hmem, hstart, ?_⟩
    rw [hexp]
    exact lexLeB_refl t.data

/-- C2 witness: at a current time one month before `annA` expires, `annA`
is in the public list, so the first conjunct applies and yields the
byte-wise bound. -/
theorem ann_C2_witness :
    strLeB "2024-12-01T00:00:00" annA.expiration_date = true :=
  (ann_C2_amended dbA "2024-12-01T00:00:00" annA).1 (by decide)

/-- C3: the public list and (on success) the teacher-only full list are both
sorted in descending `created_at` order. -/
theorem ann_C3 (db : DB) (t : String) (tu : Option String)
    (l : List Announcement) :
    List.Sorted createdAtGe (get_active_announcements db t).1 ∧
    ((get_all_announcements db tu).1 = .ok l → List.Sorted createdAtGe l) := by
  refine ⟨sorted_active db t, fun h => ?_⟩
  unfold get_all_announcements at h
  cases tu with
  | none => simp [pyTruthy] at h
  | some u =>
    by_cases hu : u = ""
    · simp [pyTruthy, hu] at h
    · by_cases hm : u ∈ db.teachers
      · simp [pyTruthy, hu, hm] at h
        rw [← h]
        exact List.sorted_insertionSort createdAtGe _
      · simp [pyTruthy, hu, hm] at h

/-- C3 witness: a store holding two announcements in ascending `created_at`
order; the authenticated full list returns them newest first, sorted. -/
theorem ann_C3_witness :
    List.Sorted createdAtGe [annB, annA] :=
  (ann_C3 dbB "2024-01-01T00:00:00" (some "alice") [annB, annA]).2 (by decide)

/-- C4 counterexample: the claim says a present credential matching no
teacher fails with the invalid-credential reason; but the credential
`some ""` is present, matches no teacher in `dbA`, and the code fails with
the missing-credential reason instead (`if not teacher_username` treats the
empty string like an absent parameter). -/
theorem ann_C4_cex :
    (get_all_announcements dbA (some "")).1 = .error .authRequired ∧
    "" ∉ dbA.teachers ∧
    HError.authRequired ≠ HError.invalidCredential := by
  refine ⟨by decide, by decide, by decide⟩

/-- C4 (amended): for every teacher-only operation, an absent or empty
credential fails with the missing-credential reason, a present non-empty
credential matching no Teacher record fails with the invalid-credential
reason, and in either failure case both stores are unchanged. -/
theorem ann_C4_amended (db : DB) (tu : Option String)
    (id msg exp now newId : String) (sd : Option String) :
    ((tu = none ∨ tu = some "") →
      get_all_announcements db tu = (.error .authRequired, db) ∧
      create_announcement db now newId msg exp sd tu = (.error .authRequired, db) ∧
      update_announcement db id msg exp sd tu = (.error .authRequired, db) ∧
      delete_announcement db id tu = (.error .authRequired, db)) ∧
    (∀ u, tu = some u → u ≠ "" → u ∉ db.teachers →
      get_all_announcements db tu = (.error .invalidCredential, db) ∧
      create_announcement db now newId msg exp sd tu = (.error .invalidCredential, db) ∧
      update_announcement db id msg exp sd tu = (.error .invalidCredential, db) ∧
      delete_announcement db id tu = (.error .invalidCredential, db)) := by
  constructor
  · rintro (rfl | rfl) <;>
      exact ⟨rfl, rfl, rfl, rfl⟩
  · rintro u rfl hu hm
    have ht : pyTruthy (some u) = true := by
      simp [pyTruthy, hu]
    refine ⟨?_, ?_, ?_, ?_⟩ <;>
      simp [get_all_announcements, create_announcement, update_announcement,
        delete_announcement, ht, hm]

/-- C4 witness: with the credential absent, all four operations fail with
the missing-credential reason and leave the store `dbA` unchanged; with the
unknown non-empty credential `"mallory"`, all four fail with the
invalid-credential reason and leave `dbA` unchanged. -/
theorem ann_C4_witness :
    (get_all_announcements dbA none = (.error .authRequired, dbA) ∧
      create_announcement dbA "2024-06-02T00:00:00" "64a000000000000000000002"
        "hello" "2025-01-01T00:00:00" none none = (.error .authRequired, dbA) ∧
      update_announcement dbA "64a000000000000000000001" "hello"
        "2025-01-01T00:00:00" none none = (.error .authRequired, dbA) ∧
      delete_announcement dbA "64a000000000000000000001" none =
        (.error .authRequired, dbA)) ∧
    (get_all_announcements dbA (some "mallory") = (.error .invalidCredential, dbA) ∧
      create_announcement dbA "2024-06-02T00:00:00" "64a000000000000000000002"
        "hello" "2025-01-01T00:00:00" none (some "mallory") =
        (.error .invalidCredential, dbA) ∧
      update_announcement dbA "64a000000000000000000001" "hello"
        "2025-01-01T00:00:00" none (some "mallory") =
        (.error .invalidCredential, dbA) ∧
      delete_announcement dbA "64a000000000000000000001" (some "mallory") =
        (.error .invalidCredential, dbA)) :=
  ⟨(ann_C4_amended dbA none "64a000000000000000000001" "hello"
      "2025-01-01T00:00:00" "2024-06-02T00:00:00" "64a000000000000000000002"
      none).1 (Or.inl rfl),
   (ann_C4_amended dbA (some "mallory") "64a000000000000000000001" "hello"
      "2025-01-01T00:00:00" "2024-06-02T00:00:00" "64a000000000000000000002"
      none).2 "mallory" rfl (by decide) (by decide)⟩

/-- C5 counterexample: the claim says a provided `start_date` that does not
parse makes create fail with a validation error and leave the store
unchanged; but the provided `start_date` `some ""` does not parse, yet the
create succeeds and the announcement store grows (the code only validates
`start_date` when it is truthy, and `""` is falsy). -/
theorem ann_C5_cex :
    pyDateOk "" = false ∧
    (create_announcement dbA "2024-06-02T00:00:00" "64a000000000000000000002"
        "hello" "2025-01-01T00:00:00" (some "") (some "alice")).1 =
      .ok { oid := "64a000000000000000000002", message := "hello",
            expiration_date := "2025-01-01T00:00:00", start_date := none,
            created_by := "alice", created_at := "2024-06-02T00:00:00" } ∧
    (create_announcement dbA "2024-06-02T00:00:00" "64a000000000000000000002"
        "hello" "2025-01-01T00:00:00" (some "") (some "alice")).2 ≠ dbA := by
  refine ⟨rfl, by decide, by decide⟩

/-- C5 (amended): for an authenticated request, if `expiration_date` does
not parse, or a *non-empty* `start_date` is provided and does not parse,
then create fails with the date-validation error and the store is
unchanged, and so does update once its identifier and existence
preconditions are met; the validation error is a 400, distinct from the 401
authentication failures. -/
theorem ann_C5_amended (db : DB) (u msg exp id now newId oid : String)
    (sd : Option String) (a : Announcement)
    (hu : u ≠ "") (hm : u ∈ db.teachers)
    (hbad : pyDateOk exp = false ∨
      ∃ s, sd = some s ∧ s ≠ "" ∧ pyDateOk s = false) :
    create_announcement db now newId msg exp sd (some u) =
      (.error .invalidDateFormat, db) ∧
    (parseObjectId id = some oid → findOneAnn db.announcements oid = some a →
      update_announcement db id msg exp sd (some u) =
        (.error .invalidDateFormat, db)) ∧
    HError.invalidDateFormat.status = 400 ∧
    HError.authRequired.status = 401 ∧ HError.invalidCredential.status = 401 := by
  have hv : validDates exp sd = false := (validDates_eq_false_iff exp sd).mpr hbad
  have ht : pyTruthy (some u) = true := by simp [pyTruthy, hu]
  refine ⟨?_, ?_, rfl, rfl, rfl⟩
  · simp [create_announcement, ht, hm, hv]
  · intro hid hfind
    simp [update_announcement, ht, hm, hid, hfind, hv]

/-- C5 witness: authenticated as `"alice"`, an unparseable
`expiration_date` `"not-a-date"` makes both create and (on the existing
`annA`) update fail with the 400 date-validation error, leaving `dbA`
unchanged. -/
theorem ann_C5_witness :
    create_announcement dbA "2024-06-02T00:00:00" "64a000000000000000000002"
      "hello" "not-a-date" none (some "alice") =
      (.error .invalidDateFormat, dbA) ∧
    update_announcement dbA "64a000000000000000000001" "hello" "not-a-date"
      none (some "alice") = (.error .invalidDateFormat, dbA) := by
  have h := ann_C5_amended dbA "alice" "hello" "not-a-date"
    "64a000000000000000000001" "2024-06-02T00:00:00"
    "64a000000000000000000002" "64a000000000000000000001" none annA
    (by decide) (by decide) (Or.inl (by decide))
  exact ⟨h.1, h.2.1 (by decide) (by decide)⟩

/-- C6: a successful create persists exactly one new record, appended to the
announcements collection and returned as the response: `created_by` is the
requesting teacher's identifier, `created_at` is the current UTC instant
string, `message` and `expiration_date` are the given values, the
`start_date` field is present only when one was supplied (and entirely
absent when not supplied), and the record carries the store-generated
identifier in string form. -/
theorem ann_C6 (db : DB) (now newId msg exp : String) (sd tu : Option String)
    (ann : Announcement) (db2 : DB)
    (h : create_announcement db now newId msg exp sd tu = (.ok ann, db2)) :
    tu = some ann.created_by ∧
    ann.created_at = now ∧ ann.message = msg ∧ ann.expiration_date = exp ∧
    (∀ s, ann.start_date = some s → sd = some s) ∧
    (sd = none → ann.start_date = none) ∧
    ann.oid = newId ∧
    db2.announcements = db.announcements ++ [ann] ∧
    db2.teachers = db.teachers := by
  unfold create_announcement at h
  cases tu with
  | none => simp [pyTruthy] at h
  | some u =>
    by_cases hu : u = ""
    · simp [pyTruthy, hu] at h
    · have ht : pyTruthy (some u) = true := by simp [pyTruthy, hu]
      by_cases hm : u ∈ db.teachers
      · by_cases hv : validDates exp sd = true
        · simp only [ht, Bool.not_true, Bool.false_eq_true, if_false, hm,
            if_true, hv, Prod.mk.injEq, Except.ok.injEq] at h
          obtain ⟨hann, hdb2⟩ := h
          subst hann
          subst hdb2
          refine ⟨rfl, rfl, rfl, rfl, ?_, ?_, rfl, rfl, rfl⟩
          · intro s hs
            by_cases hts : pyTruthy sd = true
            · rw [if_pos hts] at hs
              exact hs
            · rw [if_neg hts] at hs
              cases hs
          · intro hsd
            subst hsd
            rfl
        · simp [ht, hm, hv] at h
      · simp [ht, hm] at h

/-- C6 witness: a concrete successful create against `dbA`, authenticated as
`"alice"`, with no `start_date` supplied: the response record carries the
expected fields, its `start_date` is absent, and the store after the call is
`dbA` plus exactly that record. -/
theorem ann_C6_witness :
    some "alice" =
      some (Announcement.created_by
        { oid := "64a000000000000000000002", message := "hello",
          expiration_date := "2025-01-01T00:00:00", start_date := none,
          created_by := "alice", created_at := "2024-06-02T00:00:00" }) ∧
    Announcement.created_at
        { oid := "64a000000000000000000002", message := "hello",
          expiration_date := "2025-01-01T00:00:00", start_date := none,
          created_by := "alice", created_at := "2024-06-02T00:00:00" } =
      "2024-06-02T00:00:00" ∧
    Announcement.message
        { oid := "64a000000000000000000002", message := "hello",
          expiration_date := "2025-01-01T00:00:00", start_date := none,
          created_by := "alice", created_at := "2024-06-02T00:00:00" } =
      "hello" ∧
    Announcement.expiration_date
        { oid := "64a000000000000000000002", message := "hello",
          expiration_date := "2025-01-01T00:00:00", start_date := none,
          created_by := "alice", created_at := "2024-06-02T00:00:00" } =
      "2025-01-01T00:00:00" ∧
    (∀ s, Announcement.start_date
        { oid := "64a000000000000000000002", message := "hello",
          expiration_date := "2025-01-01T00:00:00", start_date := none,
          created_by := "alice", created_at := "2024-06-02T00:00:00" } =
        some s → (none : Option String) = some s) ∧
    ((none : Option String) = none → Announcement.start_date
        { oid := "64a000000000000000000002", message := "hello",
          expiration_date := "2025-01-01T00:00:00", start_date := none,
          created_by := "alice", created_at := "2024-06-02T00:00:00" } = none) ∧
    Announcement.oid
        { oid := "64a000000000000000000002", message := "hello",
          expiration_date := "2025-01-01T00:00:00", start_date := none,
          created_by := "alice", created_at := "2024-06-02T00:00:00" } =
      "64a000000000000000000002" ∧
    DB.announcements
        { announcements := dbA.announcements ++
            [{ oid := "64a000000000000000000002", message := "hello",
               expiration_date := "2025-01-01T00:00:00", start_date := none,
               created_by := "alice", created_at := "2024-06-02T00:00:00" }],
          teachers := ["alice"] } =
      dbA.announcements ++
        [{ oid := "64a000000000000000000002", message := "hello",
           expiration_date := "2025-01-01T00:00:00", start_date := none,
           created_by := "alice", created_at := "2024-06-02T00:00:00" }] ∧
    DB.teachers
        { announcements := dbA.announcements ++
            [{ oid := "64a000000000000000000002", message := "hello",
               expiration_date := "2025-01-01T00:00:00", start_date := none,
               created_by := "alice", created_at := "2024-06-02T00:00:00" }],
          teachers := ["alice"] } =
      dbA.teachers :=
  ann_C6 dbA "2024-06-02T00:00:00" "64a000000000000000000002" "hello"
    "2025-01-01T00:00:00" none (some "alice")
    { oid := "64a000000000000000000002", message := "hello",
      expiration_date := "2025-01-01T00:00:00", start_date := none,
      created_by := "alice", created_at := "2024-06-02T00:00:00" }
    { announcements := dbA.announcements ++
        [{ oid := "64a000000000000000000002", message := "hello",
           expiration_date := "2025-01-01T00:00:00", start_date := none,
           created_by := "alice", created_at := "2024-06-02T00:00:00" }],
      teachers := ["alice"] }
    (by decide)

/-- C7 counterexample: the claim says a supplied `start_date` is set by a
successful update; but supplying `start_date = some ""` to an update of
`annS` (which has a `start_date` field) succeeds with a response whose
`start_date` field is absent, not set to `""` (the code treats the falsy
`""` as not supplied and unsets the field). -/
theorem ann_C7_cex :
    (update_announcement dbS "64a000000000000000000005" "m2"
        "2026-01-01T00:00:00" (some "") (some "alice")).1.map
      Announcement.start_date = .ok none ∧
    (none : Option String) ≠ some "" := by
  refine ⟨by decide, by decide⟩

/-- C7 (amended): every successful update sets `message` and
`expiration_date` to the supplied values; if a non-empty `start_date` is
supplied it is set; if `start_date` is not supplied or is supplied empty,
the record afterwards has no `start_date` field; and the response is the
record as stored after all mutations. -/
theorem ann_C7_amended (db db2 : DB) (id msg exp : String)
    (sd tu : Option String) (ann : Announcement)
    (h : update_announcement db id msg exp sd tu = (.ok ann, db2)) :
    ann.message = msg ∧ ann.expiration_date = exp ∧
    (pyTruthy sd = true → ann.start_date = sd) ∧
    (pyTruthy sd = false → ann.start_date = none) ∧
    (∃ oid, parseObjectId id = some oid ∧
      findOneAnn db2.announcements oid = some ann) ∧
    db2.teachers = db.teachers := by
  unfold update_announcement at h
  split at h
  · simp at h
  split at h
  · simp at h
  next u =>
  split at h
  case isFalse => simp at h
  next hm =>
  split at h
  · simp at h
  next obj_id hid =>
  split at h
  · simp at h
  next announcement hfind =>
  split at h
  case isFalse => simp at h
  next hv =>
  split at h
  next hts =>
    obtain ⟨c1, c2, c3, c4, c5, c6⟩ :=
      update_tail db db2 obj_id msg exp sd ann db.announcements announcement
        hfind (fun hfalse => absurd (hts.symm.trans hfalse) (by decide)) h
    exact ⟨c1, c2, c3, c4, ⟨obj_id, hid, c5⟩, c6⟩
  next hts =>
  split at h
  next hsome =>
    have hf1 : findOneAnn (updateOneAnn db.announcements obj_id unsetStartDate).1
        obj_id = some (unsetStartDate announcement) := by
      rw [findOne_updateOne db.announcements obj_id unsetStartDate (fun _ => rfl),
        hfind]
      rfl
    obtain ⟨c1, c2, c3, c4, c5, c6⟩ :=
      update_tail db db2 obj_id msg exp sd ann _ (unsetStartDate announcement)
        hf1 (fun _ => rfl) h
    exact ⟨c1, c2, c3, c4, ⟨obj_id, hid, c5⟩, c6⟩
  next hsome =>
    have hstart0 : announcement.start_date = none := by
      cases hsd : announcement.start_date with
      | none => rfl
      | some s0 =>
        rw [hsd] at hsome
        simp at hsome
    obtain ⟨c1, c2, c3, c4, c5, c6⟩ :=
      update_tail db db2 obj_id msg exp sd ann db.announcements announcement
        hfind (fun _ => hstart0) h
    exact ⟨c1, c2, c3, c4, ⟨obj_id, hid, c5⟩, c6⟩

/-- C7 witness: updating `annS` (which has a `start_date`) while omitting
`start_date` succeeds; the response carries the new `message` and
`expiration_date`, has no `start_date` field, and is the stored record. -/
theorem ann_C7_witness :
    Announcement.message
        { oid := "64a000000000000000000005", message := "m2",
          expiration_date := "2026-01-01T00:00:00", start_date := none,
          created_by := "alice", created_at := "2024-06-01T00:00:00" } = "m2" ∧
    Announcement.expiration_date
        { oid := "64a000000000000000000005", message := "m2",
          expiration_date := "2026-01-01T00:00:00", start_date := none,
          created_by := "alice", created_at := "2024-06-01T00:00:00" } =
      "2026-01-01T00:00:00" ∧
    (pyTruthy none = true → Announcement.start_date
        { oid := "64a000000000000000000005", message := "m2",
          expiration_date := "2026-01-01T00:00:00", start_date := none,
          created_by := "alice", created_at := "2024-06-01T00:00:00" } = none) ∧
    (pyTruthy none = false → Announcement.start_date
        { oid := "64a000000000000000000005", message := "m2",
          expiration_date := "2026-01-01T00:00:00", start_date := none,
          created_by := "alice", created_at := "2024-06-01T00:00:00" } = none) ∧
    (∃ oid, parseObjectId "64a000000000000000000005" = some oid ∧
      findOneAnn (DB.announcements
        { announcements :=
            [{ oid := "64a000000000000000000005", message := "m2",
               expiration_date := "2026-01-01T00:00:00", start_date := none,
               created_by := "alice", created_at := "2024-06-01T00:00:00" }],
          teachers := ["alice"] }) oid =
        some { oid := "64a000000000000000000005", message := "m2",
               expiration_date := "2026-01-01T00:00:00", start_date := none,
               created_by := "alice", created_at := "2024-06-01T00:00:00" }) ∧
    DB.teachers
        { announcements :=
            [{ oid := "64a000000000000000000005", message := "m2",
               expiration_date := "2026-01-01T00:00:00", start_date := none,
               created_by := "alice", created_at := "2024-06-01T00:00:00" }],
          teachers := ["alice"] } = dbS.teachers :=
  ann_C7_amended dbS
    { announcements :=
        [{ oid := "64a000000000000000000005", message := "m2",
           expiration_date := "2026-01-01T00:00:00", start_date := none,
           created_by := "alice", created_at := "2024-06-01T00:00:00" }],
      teachers := ["alice"] }
    "64a000000000000000000005" "m2" "2026-01-01T00:00:00" none (some "alice")
    { oid := "64a000000000000000000005", message := "m2",
      expiration_date := "2026-01-01T00:00:00", start_date := none,
      created_by := "alice", created_at := "2024-06-01T00:00:00" }
    (by decide)

/-- C8: for an authenticated delete, a syntactically invalid identifier
fails with the id-format error; otherwise the delete is attempted
unconditionally and the absence of effect (`deleted_count = 0`, which
happens exactly when no record with the id exists — including an
already-deleted one) is what yields the not-found error; when a record
existed, exactly one record is removed and the confirmation message is
returned together with the shrunken store. -/
theorem ann_C8 (db : DB) (id u : String) (hu : u ≠ "") (hm : u ∈ db.teachers) :
    (parseObjectId id = none →
      delete_announcement db id (some u) = (.error .invalidIdFormat, db)) ∧
    (∀ oid, parseObjectId id = some oid →
      (findOneAnn db.announcements oid = none →
        delete_announcement db id (some u) = (.error .notFound, db)) ∧
      (∀ a, findOneAnn db.announcements oid = some a →
        delete_announcement db id (some u) =
          (.ok "Announcement deleted successfully",
            { db with announcements := (deleteOneAnn db.announcements oid).1 }) ∧
        (deleteOneAnn db.announcements oid).1.length + 1 =
          db.announcements.length)) := by
  have ht : pyTruthy (some u) = true := by simp [pyTruthy, hu]
  constructor
  · intro hid
    unfold delete_announcement
    simp [ht, hm, hid]
  · intro oid hid
    constructor
    · intro hnf
      have hdel := deleteOne_not_found db.announcements oid hnf
      unfold delete_announcement
      simp [ht, hm, hid, hdel]
    · intro a hf
      obtain ⟨hc, hlen⟩ := deleteOne_found db.announcements oid a hf
      refine ⟨?_, hlen⟩
      unfold delete_announcement
      simp [ht, hm, hid, hc]

/-- C8 witness: the authenticated delete of `annA` by its identifier
returns the confirmation message and removes exactly that one record. -/
theorem ann_C8_witness :
    delete_announcement dbA "64a000000000000000000001" (some "alice") =
      (.ok "Announcement deleted successfully",
        { dbA with announcements :=
            (deleteOneAnn dbA.announcements "64a000000000000000000001").1 }) ∧
    (deleteOneAnn dbA.announcements "64a000000000000000000001").1.length + 1 =
      dbA.announcements.length :=
  ((ann_C8 dbA "64a000000000000000000001" "alice" (by decide) (by decide)).2
    "64a000000000000000000001" (by decide)).2 annA (by decide)

/-- C9: the defensive internal-error branch of update (taken when the final
field update reports zero matched and zero modified documents) is
unreachable: in this sequential model — where the record found by the
existence check is still present when the field update runs — no update
request ever returns the 500 error. -/
theorem ann_C9 (db : DB) (id msg exp : String) (sd tu : Option String) :
    (update_announcement db id msg exp sd tu).1 ≠ .error .updateFailed := by
  unfold update_announcement
  split
  · simp
  split
  · simp
  next u =>
  split
  case isFalse => simp
  next hm =>
  split
  · simp
  next obj_id hid =>
  split
  · simp
  next announcement hfind =>
  split
  case isFalse => simp
  next hv =>
  split
  next hts =>
    exact update_tail_ne db obj_id msg exp sd db.announcements announcement hfind
  next hts =>
  split
  next hsome =>
    have hf1 : findOneAnn (updateOneAnn db.announcements obj_id unsetStartDate).1
        obj_id = some (unsetStartDate announcement) := by
      rw [findOne_updateOne db.announcements obj_id unsetStartDate (fun _ => rfl),
        hfind]
      rfl
    exact update_tail_ne db obj_id msg exp sd _ (unsetStartDate announcement) hf1
  next hsome =>
    exact update_tail_ne db obj_id msg exp sd db.announcements announcement hfind

/-- C10: the public filter compares the stored timestamp strings with the
naive `utcnow` string byte-wise rather than comparing parsed instants: the
announcement `annZ`, whose `expiration_date` carries the zone offset
`+05:00` and chronologically expired two hours before the current instant
(its instant is strictly smaller than the current time's), is nevertheless
returned by the public list, disagreeing with the chronological visibility
window. -/
theorem ann_C10 :
    annZ.expiration_date = "2024-12-31T23:00:00+05:00" ∧
    annZ ∈ (get_active_announcements dbZ "2024-12-31T20:00:00").1 ∧
    chronoVisible "2024-12-31T20:00:00" annZ = false ∧
    isoInstant annZ.expiration_date = some 63897703200000000 ∧
    isoInstant "2024-12-31T20:00:00" = some 63897710400000000 ∧
    (63897703200000000 : Int) < 63897710400000000 :=
  ⟨rfl, by decide, by decide, by decide, by decide, by decide⟩

end Announcements
